import Mathlib

/-!
Verification of the bibrs bibliography manager (src/bibrs/src/main.rs).

The Rust source is shallowly embedded: the database table `doi_entries`
becomes a list of rows, the SQL statements become pure functions on that
list, external processes (DOI fetch, editor, fzf) become function
parameters describing their observable behaviour, and Rust panics
(`unwrap` / `expect` / map indexing) become error values, since a panic
aborts the operation with nothing written, exactly like a returned error.
-/

namespace Bibrs

/-- Rust struct DOIEntry (main.rs lines 18-32).  The i64 fields are
modelled as unbounded Int; no claim exercises i64 overflow. -/
structure DOIEntry where
  cite_key : String
  bib_type : String
  doi : String
  url : String
  author : String
  title : String
  journal : String
  publisher : String
  volume : Int
  number : Int
  month : String
  year : Int
deriving DecidableEq, Repr

/-- One bibliography record as produced by the external nom_bibtex
parser: entry type, citation key and the tag map (association list). -/
structure Bibliography where
  entry_type : String
  citation_key : String
  tags : List (String × String)
deriving DecidableEq, Repr

/-- Result of Bibtex::parse: a list of bibliography records. -/
structure Bibtex where
  bibliographies : List Bibliography
deriving DecidableEq, Repr

/-- Tag lookup, mirroring the `tags["doi"]` map indexing in the source
(the Option models the panic on a missing key). -/
def tagOf (b : Bibliography) (k : String) : Option String :=
  b.tags.lookup k

/-- Value of one ASCII decimal digit. -/
def digitVal (c : Char) : Option Nat :=
  if c.isDigit then some (c.toNat - Char.toNat '0') else none

/-- Decimal accumulation over the digit characters; fails at the first
non-digit. -/
def digitsVal : List Char → Nat → Option Nat
  | [], acc => some acc
  | c :: cs, acc =>
    match digitVal c with
    | none => none
    | some d => digitsVal cs (acc * 10 + d)

/-- Rust str::parse::<i64>: optional single leading sign, then at least
one ASCII decimal digit and nothing else, with the value inside the i64
range; anything else fails.  (Defined over the character list so that
concrete inputs evaluate by kernel reduction.) -/
def parse_i64 (s : String) : Option Int :=
  match s.data with
  | [] => none
  | c :: cs =>
    let sgn : Int := if c = '-' then -1 else 1
    let ds : List Char := if c = '-' ∨ c = '+' then cs else c :: cs
    match ds with
    | [] => none
    | _ :: _ =>
      match digitsVal ds 0 with
      | none => none
      | some n =>
        let v : Int := sgn * n
        if -(2 ^ 63) ≤ v ∧ v < 2 ^ 63 then some v else none

/-- Rust str::trim: the string with leading and trailing whitespace
characters removed.  (Defined over the character list so that concrete
inputs evaluate by kernel reduction.) -/
def rsTrim (s : String) : String :=
  ⟨((s.data.dropWhile Char.isWhitespace).reverse.dropWhile
      Char.isWhitespace).reverse⟩

/-- Field extraction of DOIEntry::new from the first bibliography record
(main.rs lines 39-57).  Every `tags[...]` indexing and every
`.parse::<i64>().unwrap()` is a potential panic, modelled by Option. -/
def entryOfBiblio (b : Bibliography) : Option DOIEntry := do
  let doi ← tagOf b "doi"
  let url ← tagOf b "url"
  let author ← tagOf b "author"
  let title ← tagOf b "title"
  let journal ← tagOf b "journal"
  let publisher ← tagOf b "publisher"
  let volumeS ← tagOf b "volume"
  let volume ← parse_i64 volumeS
  let numberS ← tagOf b "number"
  let number ← parse_i64 numberS
  let month ← tagOf b "month"
  let yearS ← tagOf b "year"
  let year ← parse_i64 yearS
  pure { cite_key := b.citation_key, bib_type := b.entry_type,
         doi := doi, url := url, author := author, title := title,
         journal := journal, publisher := publisher,
         volume := volume, number := number, month := month, year := year }

/-- DOIEntry::new (main.rs lines 35-58).  The external nom_bibtex parser
is a parameter; `Bibtex::parse(..).unwrap()` panics when it fails (none),
and `bibliographies()[0]` panics on an empty list (head?). -/
def DOIEntry.new (parseBib : String → Option Bibtex) (raw_biblatex : String) :
    Option DOIEntry := do
  let bibtex ← parseBib raw_biblatex
  let biblio ← bibtex.bibliographies.head?
  entryOfBiblio biblio

/-- The ten tags DOIEntry::new reads from the record. -/
def requiredTags : List String :=
  ["doi", "url", "author", "title", "journal", "publisher",
   "volume", "number", "month", "year"]

/-- A record is rejected when a required tag is absent or a numeric tag
does not parse as an i64. -/
def badBiblio (b : Bibliography) : Prop :=
  (∃ t ∈ requiredTags, tagOf b t = none) ∨
  (∃ t ∈ (["volume", "number", "year"] : List String),
    ∃ v, tagOf b t = some v ∧ parse_i64 v = none)

/-- The doi_entries table: one row per entry. -/
abbrev Store := List DOIEntry

/-- Failures raised by the database statements. -/
inductive DbErr
  | duplicateKey
  | notFound
deriving DecidableEq, Repr

/-- add_entry (main.rs lines 217-242): INSERT .. RETURNING *.
Modelled from the spec: the migrations directory that declares the
schema is not part of src/, and section 6 of the design fixes
`cite_key` as the table's uniqueness constraint, so an insert with an
existing key is rejected (DuplicateKeyError) and the table is left as
it was; a fresh key is appended and the stored row echoed back. -/
def add_entry (store : Store) (doi_entry : DOIEntry) :
    Except DbErr (Store × DOIEntry) :=
  if store.any (fun r => r.cite_key == doi_entry.cite_key) then
    .error .duplicateKey
  else
    .ok (store ++ [doi_entry], doi_entry)

/-- update_entry (main.rs lines 245-282): UPDATE .. WHERE cite_key = $13
RETURNING *, then fetch_one.  When no row carries the old key the
statement returns zero rows and fetch_one fails (NotFoundError);
otherwise the matching row is replaced wholesale by the new entry's
field set, including a possibly different cite_key. -/
def update_entry (store : Store) (key : String) (doi_entry : DOIEntry) :
    Except DbErr (Store × DOIEntry) :=
  if store.any (fun r => r.cite_key == key) then
    .ok (store.map (fun r => if r.cite_key == key then doi_entry else r),
         doi_entry)
  else
    .error .notFound

/-- delete_entry (main.rs lines 285-292): DELETE .. RETURNING *, then
fetch_one, which fails when the key is absent. -/
def delete_entry (store : Store) (key : String) :
    Except DbErr (Store × DOIEntry) :=
  match store.find? (fun r => r.cite_key == key) with
  | none => .error .notFound
  | some r => .ok (store.filter (fun x => ¬ x.cite_key == key), r)

/-- list_entries (main.rs lines 295-301): SELECT * FROM doi_entries. -/
def list_entries (store : Store) : Store := store

/-- A JSON scalar as it appears in the row_to_json projection of a row:
the entry's fields are strings and integers. -/
inductive JVal
  | js (s : String)
  | jn (n : Int)
deriving DecidableEq, Repr

/-- The row_to_json projection used by entry_to_json (main.rs lines
320-341): a JSON object with the twelve columns in select order. -/
def toStructured (e : DOIEntry) : List (String × JVal) :=
  [("cite_key", .js e.cite_key), ("bib_type", .js e.bib_type),
   ("doi", .js e.doi), ("url", .js e.url), ("author", .js e.author),
   ("title", .js e.title), ("journal", .js e.journal),
   ("publisher", .js e.publisher), ("volume", .jn e.volume),
   ("number", .jn e.number), ("month", .js e.month),
   ("year", .jn e.year)]

/-- Fetch a string field of the JSON object, as serde does when filling
a String field of DOIEntry: the key must be present with a string value. -/
def getStr (m : List (String × JVal)) (k : String) : Option String :=
  match m.lookup k with
  | some (.js s) => some s
  | _ => none

/-- Fetch an integer field of the JSON object, as serde does when
filling an i64 field of DOIEntry. -/
def getInt (m : List (String × JVal)) (k : String) : Option Int :=
  match m.lookup k with
  | some (.jn n) => some n
  | _ => none

/-- serde_json deserialization of a JSON object into DOIEntry (the
`serde_json::from_str::<DOIEntry>` at main.rs line 368, applied to the
structured value the text denotes): every field must be present with
the declared type; unknown members are ignored; member order is free. -/
def fromStructured (m : List (String × JVal)) : Option DOIEntry := do
  let cite_key ← getStr m "cite_key"
  let bib_type ← getStr m "bib_type"
  let doi ← getStr m "doi"
  let url ← getStr m "url"
  let author ← getStr m "author"
  let title ← getStr m "title"
  let journal ← getStr m "journal"
  let publisher ← getStr m "publisher"
  let volume ← getInt m "volume"
  let number ← getInt m "number"
  let month ← getStr m "month"
  let year ← getInt m "year"
  pure { cite_key := cite_key, bib_type := bib_type, doi := doi,
         url := url, author := author, title := title,
         journal := journal, publisher := publisher,
         volume := volume, number := number, month := month, year := year }

/-- entry_to_json (main.rs lines 320-341): select the row with the given
cite_key and project it with row_to_json; fetch_one fails (none) when
the key is absent. -/
def entry_to_json (store : Store) (cite_key : String) :
    Option (List (String × JVal)) :=
  (store.find? (fun r => r.cite_key == cite_key)).map toStructured

/-- Failure modes of the edit workflow (spec section 7 taxonomy over the
abort sites of edit_entry, main.rs lines 344-374).  `editorError` is the
spec's EditorError for a non-zero editor exit; the implementation
discards the exit status, so this constructor is never produced — a
fact recorded by the C5 theorems below. -/
inductive EditErr
  | notFound
  | noEditorEnv
  | editorSpawn
  | editorError (status : Int)
  | parseError
  | dbError (e : DbErr)
  | emptySelection
deriving DecidableEq, Repr

/-- Decidable equality of Except values, used to evaluate concrete
workflow outcomes. -/
instance exceptDecEq {ε α : Type} [DecidableEq ε] [DecidableEq α] :
    DecidableEq (Except ε α) := fun a b =>
  match a, b with
  | .error e, .error f =>
    if h : e = f then isTrue (by rw [h]) else isFalse (by simp [h])
  | .error _, .ok _ => isFalse (fun hc => Except.noConfusion hc)
  | .ok _, .error _ => isFalse (fun hc => Except.noConfusion hc)
  | .ok x, .ok y =>
    if h : x = y then isTrue (by rw [h]) else isFalse (by simp [h])

/-- Observable outcome of one edit workflow run: the returned result,
the final table, the update_entry calls made (old key, new entry), and
the temp-file contents the external editor was invoked on. -/
structure EditOutcome where
  result : Except EditErr Unit
  store : Store
  updates : List (String × DOIEntry)
  editorRuns : List String
deriving DecidableEq, Repr

/-- edit_entry (main.rs lines 344-374).  External pieces are parameters:
`serialize` is serde_json::to_string_pretty on the projected JSON value,
`editorVar` is the EDITOR environment variable (`var("EDITOR").unwrap()`
panics when unset), `editor` maps the text written to the temp file to
the spawn result (none = spawn failure, `.expect` panics) paired with
the file's content after the editor ran, and `deserialize` is
serde_json::from_str::<DOIEntry>.  The exit status returned by the
editor is discarded by the source, and the diff gate compares trimmed
texts before any deserialization or update. -/
def edit_entry (serialize : List (String × JVal) → String)
    (editorVar : Option String)
    (editor : String → Option Int × String)
    (deserialize : String → Option DOIEntry)
    (store : Store) (key : String) : EditOutcome :=
  match entry_to_json store key with
  | none => ⟨.error .notFound, store, [], []⟩
  | some json_entry =>
    let old_entry_str := serialize json_entry
    match editorVar with
    | none => ⟨.error .noEditorEnv, store, [], []⟩
    | some _ =>
      match editor old_entry_str with
      | (none, _) => ⟨.error .editorSpawn, store, [], [old_entry_str]⟩
      | (some _status, editable) =>
        if rsTrim editable ≠ rsTrim old_entry_str then
          match deserialize editable with
          | none => ⟨.error .parseError, store, [], [old_entry_str]⟩
          | some new_entry =>
            match update_entry store key new_entry with
            | .error e =>
              ⟨.error (.dbError e), store, [(key, new_entry)], [old_entry_str]⟩
            | .ok (store2, _) =>
              ⟨.ok (), store2, [(key, new_entry)], [old_entry_str]⟩
        else
          ⟨.ok (), store, [], [old_entry_str]⟩

/-- run_fzf_pipeline (main.rs lines 377-402).  The candidate keys are
newline-joined by `reduce(|a, b| a + "\n" + &b)`; on an empty candidate
list reduce yields None and the `.unwrap()` panics before either the
echo or the fzf child is spawned (modelled as the error case with an
empty invocation trace).  Otherwise echo streams the joined text plus
its own trailing newline into fzf (`fzfExec`), and fzf's standard
output is returned trimmed of surrounding whitespace. -/
def run_fzf_pipeline (fzfExec : String → String) (entries : Store) :
    Except EditErr String × List String :=
  match entries.map (fun r => r.cite_key) with
  | [] => (.error .emptySelection, [])
  | k :: ks =>
    let fzf := ks.foldl (fun a b => a ++ "\n" ++ b) k
    let input := fzf ++ "\n"
    (.ok (rsTrim (fzfExec input)), [input])

/-- The interactive edit branch of main (main.rs lines 174-186): list
all entries, run the fzf pipeline, and edit the picked key only when the
returned selection is non-empty. -/
def edit_interactive (fzfExec : String → String)
    (serialize : List (String × JVal) → String)
    (editorVar : Option String)
    (editor : String → Option Int × String)
    (deserialize : String → Option DOIEntry)
    (store : Store) : EditOutcome :=
  let entries := list_entries store
  match run_fzf_pipeline fzfExec entries with
  | (.error e, _) => ⟨.error e, store, [], []⟩
  | (.ok key, _) =>
    if key ≠ "" then
      edit_entry serialize editorVar editor deserialize store key
    else
      ⟨.ok (), store, [], []⟩

/-- Failure modes of the add command. -/
inductive AddErr
  | resolutionError (cause : String)
  | parseError
  | dbError (e : DbErr)
deriving DecidableEq, Repr

/-- The add branch of main (main.rs lines 139-160).  `fetch` is the
observable outcome of `client.get(url).send()` followed by
`response.text()`: a transport failure (either call's `?`) carrying its
cause, or the HTTP status code of the response together with the body
text.  The source never inspects the status code: the body goes
straight to DOIEntry::new, and only then to add_entry. -/
def add_command (parseBib : String → Option Bibtex)
    (fetch : Except String (Nat × String))
    (store : Store) : Except AddErr Unit × Store :=
  match fetch with
  | .error cause => (.error (.resolutionError cause), store)
  | .ok (_status, raw_bibtex) =>
    match DOIEntry.new parseBib raw_bibtex with
    | none => (.error .parseError, store)
    | some record =>
      match add_entry store record with
      | .error e => (.error (.dbError e), store)
      | .ok (store2, _) => (.ok (), store2)

/-- list_query_matches (main.rs lines 304-317): SELECT the rows whose
derived search column matches `websearch_to_tsquery('simple', query)`.
The tsquery semantics live in Postgres; `tsMatch query row` is that
predicate, a parameter of the model. -/
def list_query_matches (tsMatch : String → DOIEntry → Bool)
    (store : Store) (query : String) : Store :=
  store.filter (fun r => tsMatch query r)

/-- The list branch of main (main.rs lines 188-208): a -q query is
checked first, then a -t tag, each running list_query_matches on the
given string; with neither flag the interactive fzf path is taken
instead (none here, handled by run_fzf_pipeline). -/
def list_command (tsMatch : String → DOIEntry → Bool) (store : Store)
    (query : Option String) (tag : Option String) : Option Store :=
  match query with
  | some q => some (list_query_matches tsMatch store q)
  | none =>
    match tag with
    | some t => some (list_query_matches tsMatch store t)
    | none => none

/-- Newline-joined listing, one element per line in the input's order:
the spec-side description of the text streamed to the selector. -/
def newline_joined : List String → String
  | [] => ""
  | [k] => k
  | k :: ks => k ++ "\n" ++ newline_joined ks

/-- A concrete entry used to evaluate the model on closed inputs. -/
def sampleEntry : DOIEntry :=
  { cite_key := "smith2020", bib_type := "article", doi := "10.1/x",
    url := "http://x", author := "Smith", title := "Old Title",
    journal := "J", publisher := "P", volume := 1, number := 2,
    month := "jan", year := 2020 }

/-- sampleEntry after an edit that changes only the title. -/
def sampleEntryNewTitle : DOIEntry :=
  { sampleEntry with title := "New Title" }

/-- A concrete bibliography record carrying sampleEntry's tags. -/
def sampleBiblio : Bibliography :=
  { entry_type := "article", citation_key := "smith2020",
    tags := [("doi", "10.1/x"), ("url", "http://x"), ("author", "Smith"),
             ("title", "Old Title"), ("journal", "J"), ("publisher", "P"),
             ("volume", "1"), ("number", "2"), ("month", "jan"),
             ("year", "2020")] }

/-- sampleBiblio with the author tag removed. -/
def sampleBiblioNoAuthor : Bibliography :=
  { sampleBiblio with
    tags := [("doi", "10.1/x"), ("url", "http://x"),
             ("title", "Old Title"), ("journal", "J"), ("publisher", "P"),
             ("volume", "1"), ("number", "2"), ("month", "jan"),
             ("year", "2020")] }

/-- A concrete nom_bibtex behaviour: the text "raw" parses to the full
sample record, everything else fails to parse. -/
def sampleParse : String → Option Bibtex :=
  fun s => if s = "raw" then some ⟨[sampleBiblio]⟩ else none

/-- A concrete nom_bibtex behaviour whose only record lacks author. -/
def sampleParseNoAuthor : String → Option Bibtex :=
  fun s => if s = "raw" then some ⟨[sampleBiblioNoAuthor]⟩ else none

/-- A concrete serializer: every structured value renders as "OLD". -/
def sampleSerialize : List (String × JVal) → String := fun _ => "OLD"

/-- A concrete editor run: exits with status 0 leaving "NEW" in the file. -/
def sampleEditorChange : String → Option Int × String :=
  fun _ => (some 0, "NEW")

/-- A concrete editor run: exits with status 1 leaving "NEW" in the file. -/
def sampleEditorStatus1 : String → Option Int × String :=
  fun _ => (some 1, "NEW")

/-- A concrete editor run: exits with status 0 leaving the file as it
was written. -/
def sampleEditorNoop : String → Option Int × String :=
  fun t => (some 0, t)

/-- A concrete deserializer: only the text "NEW" parses, to the
retitled sample entry. -/
def sampleDeserialize : String → Option DOIEntry :=
  fun s => if s = "NEW" then some sampleEntryNewTitle else none

/-- A concrete fzf run that answers with whitespace only (the user
cancelled the selection). -/
def sampleFzfCancel : String → String := fun _ => "  "

/-! Helper lemmas shared by the claim theorems. -/

/-- A row found by key witnesses that the key-membership test of the
UPDATE statement succeeds. -/
theorem any_key_of_find (store : Store) (key : String) (e : DOIEntry)
    (h : store.find? (fun r => r.cite_key == key) = some e) :
    store.any (fun r => r.cite_key == key) = true := by
  rw [List.any_eq_true]
  have hp := List.find?_some h
  exact ⟨e, List.mem_of_find?_eq_some h, by simpa using hp⟩

/-- The reduce of the fzf pipeline computes the newline-joined listing. -/
theorem foldl_newline_joined (ks : List String) (k : String) :
    ks.foldl (fun a b => a ++ "\n" ++ b) k = newline_joined (k :: ks) := by
  induction ks generalizing k with
  | nil => rfl
  | cons b bs ih =>
    rw [List.foldl_cons, ih]
    cases bs with
    | nil => rfl
    | cons c cs => simp [newline_joined, String.append_assoc]

/-- C10: listing by tag runs exactly the same search operation as
listing by query — main's -t and -q branches both call
list_query_matches on the given string, so they return the same rows. -/
theorem c10_list_tag_equals_query (tsMatch : String → DOIEntry → Bool)
    (store : Store) (q : String) :
    list_command tsMatch store none (some q)
        = list_command tsMatch store (some q) none
      ∧ list_command tsMatch store none (some q)
        = some (list_query_matches tsMatch store q) :=
  ⟨rfl, rfl⟩

/-- C4: on an empty candidate sequence the selector workflow fails (the
reduce of the key list yields None and the unwrap panics, modelled as
EmptySelectionError) with an empty invocation trace: no external
process is ever launched. -/
theorem c4_empty_selection_fails_fast (fzfExec : String → String) :
    run_fzf_pipeline fzfExec [] = (.error .emptySelection, []) :=
  rfl

/-- C8: create on an already-present cite_key fails with
DuplicateKeyError — no new table value is produced, so the pre-existing
row stands unmodified — while create on a fresh cite_key appends the
row and echoes the stored record. -/
theorem c8_create_unique (store : Store) (e : DOIEntry) :
    (e.cite_key ∈ store.map DOIEntry.cite_key →
      add_entry store e = .error .duplicateKey)
    ∧ (e.cite_key ∉ store.map DOIEntry.cite_key →
      add_entry store e = .ok (store ++ [e], e)) := by
  constructor
  · intro h
    rcases List.mem_map.mp h with ⟨r, hr, hk⟩
    have hany : store.any (fun r => r.cite_key == e.cite_key) = true :=
      List.any_eq_true.mpr ⟨r, hr, by simp [hk]⟩
    simp [add_entry, hany]
  · intro h
    have hany : store.any (fun r => r.cite_key == e.cite_key) = false := by
      rw [List.any_eq_false]
      intro r hr
      simp only [beq_iff_eq]
      exact fun hk => h (List.mem_map.mpr ⟨r, hr, hk⟩)
    simp [add_entry, hany]

/-- Witness for C8 at concrete inputs: inserting sampleEntry into a
table already holding it is rejected, inserting it into the empty table
stores it. -/
theorem c8_create_unique_witness :
    add_entry [sampleEntry] sampleEntry = .error .duplicateKey
    ∧ add_entry [] sampleEntry = .ok ([sampleEntry], sampleEntry) :=
  ⟨(c8_create_unique [sampleEntry] sampleEntry).1 (by decide),
   (c8_create_unique [] sampleEntry).2 (by decide)⟩

/-- C9: on any structured value in the image of the row_to_json
projection, deserializing with fromStructured succeeds and
re-projecting with toStructured gives the value back. -/
theorem c9_structured_roundtrip (x : List (String × JVal))
    (h : ∃ e, x = toStructured e) :
    (fromStructured x).map toStructured = some x := by
  rcases h with ⟨e, rfl⟩
  rfl

/-- Witness for C9 at the sample entry's projection. -/
theorem c9_structured_roundtrip_witness :
    (fromStructured (toStructured sampleEntry)).map toStructured
      = some (toStructured sampleEntry) :=
  c9_structured_roundtrip (toStructured sampleEntry) ⟨sampleEntry, rfl⟩

/-- C3 fails on the code: the add branch never inspects the HTTP status
code.  A response with non-2xx status 500 whose body parses as BibTeX
is resolved, parsed and stored — the operation succeeds instead of
failing with ResolutionError, and storage is written. -/
theorem c3_counterexample_non2xx_stored :
    add_command sampleParse (.ok (500, "raw")) []
      = (.ok (), [sampleEntry]) := by
  rfl

/-- C3 amended: only a transport-level failure of the request or of
reading the body fails the add with ResolutionError carrying the cause
and leaves storage untouched; the HTTP status code is ignored, every
obtained response being processed exactly as a 200 would be. -/
theorem c3_transport_failure_resolution_error :
    (∀ (parseBib : String → Option Bibtex) (store : Store) (cause : String),
      add_command parseBib (.error cause) store
        = (.error (.resolutionError cause), store))
    ∧ (∀ (parseBib : String → Option Bibtex) (store : Store)
        (status : Nat) (raw : String),
      add_command parseBib (.ok (status, raw)) store
        = add_command parseBib (.ok (200, raw)) store) :=
  ⟨fun _ _ _ => rfl, fun _ _ _ _ => rfl⟩

/-- Elimination form for a successful Option bind: the first step and
the continuation both succeeded. -/
theorem option_bind_some_elim {α β : Type} {o : Option α}
    {f : α → Option β} {b : β} (h : (o >>= f) = some b) :
    ∃ a, o = some a ∧ f a = some b := by
  cases o with
  | none => simp at h
  | some a => exact ⟨a, rfl, by simpa using h⟩

/-- A successful field extraction forces every required tag to be
present and every numeric tag to parse as an i64. -/
theorem entryOfBiblio_some_tags (b : Bibliography) (e : DOIEntry)
    (h : entryOfBiblio b = some e) :
    (∀ t ∈ requiredTags, (tagOf b t).isSome)
    ∧ (∀ t ∈ (["volume", "number", "year"] : List String), ∀ v,
        tagOf b t = some v → (parse_i64 v).isSome) := by
  unfold entryOfBiblio at h
  obtain ⟨doi, h1, h⟩ := option_bind_some_elim h
  obtain ⟨url, h2, h⟩ := option_bind_some_elim h
  obtain ⟨author, h3, h⟩ := option_bind_some_elim h
  obtain ⟨title, h4, h⟩ := option_bind_some_elim h
  obtain ⟨journal, h5, h⟩ := option_bind_some_elim h
  obtain ⟨publisher, h6, h⟩ := option_bind_some_elim h
  obtain ⟨volumeS, h7, h⟩ := option_bind_some_elim h
  obtain ⟨volume, h8, h⟩ := option_bind_some_elim h
  obtain ⟨numberS, h9, h⟩ := option_bind_some_elim h
  obtain ⟨number, h10, h⟩ := option_bind_some_elim h
  obtain ⟨month, h11, h⟩ := option_bind_some_elim h
  obtain ⟨yearS, h12, h⟩ := option_bind_some_elim h
  obtain ⟨year, h13, h⟩ := option_bind_some_elim h
  constructor
  · intro t ht
    simp only [requiredTags, List.mem_cons, List.not_mem_nil,
      or_false] at ht
    rcases ht with rfl | rfl | rfl | rfl | rfl | rfl | rfl | rfl | rfl | rfl
      <;> simp [h1, h2, h3, h4, h5, h6, h7, h9, h11, h12]
  · intro t ht v hv
    simp only [List.mem_cons, List.not_mem_nil, or_false] at ht
    rcases ht with rfl | rfl | rfl
    · rw [h7] at hv
      injection hv with hvv
      subst hvv
      simp [h8]
    · rw [h9] at hv
      injection hv with hvv
      subst hvv
      simp [h10]
    · rw [h12] at hv
      injection hv with hvv
      subst hvv
      simp [h13]

/-- C2: a raw record whose parsed form misses a required tag, or whose
volume, number or year does not parse as an integer, fails field
extraction (the unwraps and map indexings of DOIEntry::new abort),
producing no Entry; the add flow then ends in ParseError with the
table untouched. -/
theorem c2_missing_tag_parse_fails (parseBib : String → Option Bibtex)
    (raw : String) (bt : Bibtex) (b0 : Bibliography)
    (rest : List Bibliography)
    (hp : parseBib raw = some bt) (hb : bt.bibliographies = b0 :: rest)
    (hbad : badBiblio b0) :
    DOIEntry.new parseBib raw = none
    ∧ ∀ (status : Nat) (store : Store),
        add_command parseBib (.ok (status, raw)) store
          = (.error .parseError, store) := by
  have hnone : entryOfBiblio b0 = none := by
    cases hE : entryOfBiblio b0 with
    | none => rfl
    | some e =>
      exfalso
      obtain ⟨hreq, hnum⟩ := entryOfBiblio_some_tags b0 e hE
      rcases hbad with ⟨t, ht, hmiss⟩ | ⟨t, ht, v, hv, hpv⟩
      · have hs := hreq t ht
        rw [hmiss] at hs
        simp at hs
      · have hs := hnum t ht v hv
        rw [hpv] at hs
        simp at hs
  have hnew : DOIEntry.new parseBib raw = none := by
    simp [DOIEntry.new, hp, hb, hnone]
  exact ⟨hnew, fun status store => by simp [add_command, hnew]⟩

/-- Witness for C2: the sample record without an author tag fails to
produce an entry, and the add flow returns ParseError leaving the
empty table empty. -/
theorem c2_missing_tag_parse_fails_witness :
    DOIEntry.new sampleParseNoAuthor "raw" = none
    ∧ add_command sampleParseNoAuthor (.ok (200, "raw")) []
        = (.error .parseError, []) := by
  have h := c2_missing_tag_parse_fails sampleParseNoAuthor "raw"
    ⟨[sampleBiblioNoAuthor]⟩ sampleBiblioNoAuthor [] (by rfl) rfl
    (Or.inl ⟨"author", by decide, by rfl⟩)
  exact ⟨h.1, h.2 200 []⟩

/-- C1: once the workflow has read text back from the temp file, an
update statement runs exactly when the trimmed read-back differs from
the trimmed original serialization and deserializes into an entry;
identical trimmed text ends the workflow successfully with no update,
and changed text that fails to deserialize aborts with ParseError and
no update. -/
theorem c1_diff_gated_write
    (serialize : List (String × JVal) → String) (ed : String)
    (editor : String → Option Int × String)
    (deserialize : String → Option DOIEntry)
    (store : Store) (key : String) (e0 : DOIEntry) (s : Int)
    (editable : String)
    (h1 : store.find? (fun r => r.cite_key == key) = some e0)
    (h2 : editor (serialize (toStructured e0)) = (some s, editable)) :
    ((edit_entry serialize (some ed) editor deserialize store key).updates
        ≠ []
      ↔ rsTrim editable ≠ rsTrim (serialize (toStructured e0))
          ∧ (deserialize editable).isSome)
    ∧ (rsTrim editable = rsTrim (serialize (toStructured e0)) →
        edit_entry serialize (some ed) editor deserialize store key
          = ⟨.ok (), store, [], [serialize (toStructured e0)]⟩)
    ∧ (rsTrim editable ≠ rsTrim (serialize (toStructured e0)) →
        deserialize editable = none →
        edit_entry serialize (some ed) editor deserialize store key
          = ⟨.error .parseError, store, [], [serialize (toStructured e0)]⟩)
    ∧ (∀ e1, rsTrim editable ≠ rsTrim (serialize (toStructured e0)) →
        deserialize editable = some e1 →
        (edit_entry serialize (some ed) editor deserialize store key).updates
          = [(key, e1)]) := by
  have hj : entry_to_json store key = some (toStructured e0) := by
    simp [entry_to_json, h1]
  by_cases htrim : rsTrim editable = rsTrim (serialize (toStructured e0))
  · have hE : edit_entry serialize (some ed) editor deserialize store key
        = ⟨.ok (), store, [], [serialize (toStructured e0)]⟩ := by
      simp [edit_entry, hj, h2, htrim]
    refine ⟨?_, fun _ => hE, fun hne => absurd htrim hne,
      fun e1 hne => absurd htrim hne⟩
    rw [hE]
    simp [htrim]
  · cases hd : deserialize editable with
    | none =>
      have hE : edit_entry serialize (some ed) editor deserialize store key
          = ⟨.error .parseError, store, [], [serialize (toStructured e0)]⟩ := by
        simp [edit_entry, hj, h2, htrim, hd]
      refine ⟨?_, fun heq => absurd heq htrim, fun _ _ => hE,
        fun e1 _ hd1 => ?_⟩
      · rw [hE]
        simp [htrim, hd]
      · simp at hd1
    | some e1 =>
      have hany := any_key_of_find store key e0 h1
      have hE : edit_entry serialize (some ed) editor deserialize store key
          = ⟨.ok (),
             store.map (fun r => if r.cite_key == key then e1 else r),
             [(key, e1)], [serialize (toStructured e0)]⟩ := by
        simp [edit_entry, hj, h2, htrim, hd, update_entry, hany]
      refine ⟨?_, fun heq => absurd heq htrim, fun _ hdn => ?_,
        fun e2 _ hd1 => ?_⟩
      · rw [hE]
        simp [htrim, hd]
      · simp at hdn
      · injection hd1 with he
        subst he
        rw [hE]

/-- Witness for C1 at concrete inputs: the sample table, an editor run
leaving changed valid text, and the conclusion instantiated at the
changed-and-valid case. -/
theorem c1_diff_gated_write_witness :
    (edit_entry sampleSerialize (some "vi") sampleEditorChange
      sampleDeserialize [sampleEntry] "smith2020").updates
      = [("smith2020", sampleEntryNewTitle)] :=
  (c1_diff_gated_write sampleSerialize "vi" sampleEditorChange
    sampleDeserialize [sampleEntry] "smith2020" sampleEntry 0 "NEW"
    (by rfl) (by rfl)).2.2.2 sampleEntryNewTitle (by decide) (by rfl)

/-- C5 fails on the code: edit_entry calls `.status()` and discards the
returned exit status, so a run whose editor exits 1 surfaces no
EditorError anywhere — it proceeds through the diff, performs the
update and returns success. -/
theorem c5_counterexample_status1_ignored :
    (edit_entry sampleSerialize (some "vi") sampleEditorStatus1
        sampleDeserialize [sampleEntry] "smith2020").result = .ok ()
    ∧ ¬ (edit_entry sampleSerialize (some "vi") sampleEditorStatus1
        sampleDeserialize [sampleEntry] "smith2020").result
        = .error (.editorError 1)
    ∧ (edit_entry sampleSerialize (some "vi") sampleEditorStatus1
        sampleDeserialize [sampleEntry] "smith2020").updates
        = [("smith2020", sampleEntryNewTitle)] := by
  refine ⟨by rfl, by decide, by rfl⟩

/-- C5 amended: the editor's exit status is ignored entirely — neither
surfaced as an error nor logged — and the workflow proceeds to the
read-back and diff exactly as on a zero exit: a run whose editor exits
with any status s is indistinguishable from the same run exiting 0. -/
theorem c5_nonzero_exit_does_not_stop_diff
    (serialize : List (String × JVal) → String) (ed : String)
    (f : String → String) (s : Int)
    (deserialize : String → Option DOIEntry)
    (store : Store) (key : String) :
    edit_entry serialize (some ed) (fun t => (some s, f t))
        deserialize store key
      = edit_entry serialize (some ed) (fun t => (some 0, f t))
        deserialize store key := by
  cases hj : entry_to_json store key <;> simp [edit_entry, hj]

/-- C6: a valid, textually different edit performs exactly one update
call, keyed by the original pre-edit key, and the stored table replaces
that row wholesale with the edited entry's field set (the new row may
carry a different cite_key); every other row is untouched. -/
theorem c6_update_replaces_row
    (serialize : List (String × JVal) → String) (ed : String)
    (editor : String → Option Int × String)
    (deserialize : String → Option DOIEntry)
    (store : Store) (key : String) (e0 e1 : DOIEntry) (s : Int)
    (editable : String)
    (h1 : store.find? (fun r => r.cite_key == key) = some e0)
    (h2 : editor (serialize (toStructured e0)) = (some s, editable))
    (h3 : rsTrim editable ≠ rsTrim (serialize (toStructured e0)))
    (h4 : deserialize editable = some e1) :
    edit_entry serialize (some ed) editor deserialize store key
      = ⟨.ok (), store.map (fun r => if r.cite_key == key then e1 else r),
         [(key, e1)], [serialize (toStructured e0)]⟩ := by
  have hj : entry_to_json store key = some (toStructured e0) := by
    simp [entry_to_json, h1]
  have hany := any_key_of_find store key e0 h1
  simp [edit_entry, hj, h2, h3, h4, update_entry, hany]

/-- Witness for C6: editing the sample entry's title results in the one
expected update call and the retitled stored row. -/
theorem c6_update_replaces_row_witness :
    edit_entry sampleSerialize (some "vi") sampleEditorChange
        sampleDeserialize [sampleEntry] "smith2020"
      = ⟨.ok (), [sampleEntryNewTitle],
         [("smith2020", sampleEntryNewTitle)], ["OLD"]⟩ := by
  have h := c6_update_replaces_row sampleSerialize "vi" sampleEditorChange
    sampleDeserialize [sampleEntry] "smith2020" sampleEntry
    sampleEntryNewTitle 0 "NEW" (by rfl) (by rfl) (by decide) (by rfl)
  simpa using h

/-- C7: on a non-empty candidate list the fzf pipeline streams the
newline-joined cite keys (one per line, input order, plus echo's
trailing newline) to the selector and returns its output trimmed; a
whitespace-only answer comes back as a successful empty selection, and
the interactive edit caller then stops without invoking the editor or
any update. -/
theorem c7_selector_streams_and_trims
    (fzfExec : String → String)
    (serialize : List (String × JVal) → String)
    (editorVar : Option String)
    (editor : String → Option Int × String)
    (deserialize : String → Option DOIEntry)
    (store : Store) (k : String) (ks : List String)
    (hm : store.map (fun r => r.cite_key) = k :: ks) :
    run_fzf_pipeline fzfExec store
      = (.ok (rsTrim (fzfExec (newline_joined (k :: ks) ++ "\n"))),
         [newline_joined (k :: ks) ++ "\n"])
    ∧ (rsTrim (fzfExec (newline_joined (k :: ks) ++ "\n")) = "" →
        edit_interactive fzfExec serialize editorVar editor deserialize
          store = ⟨.ok (), store, [], []⟩) := by
  have hrun : run_fzf_pipeline fzfExec store
      = (.ok (rsTrim (fzfExec (newline_joined (k :: ks) ++ "\n"))),
         [newline_joined (k :: ks) ++ "\n"]) := by
    unfold run_fzf_pipeline
    rw [hm]
    dsimp only
    rw [foldl_newline_joined]
  refine ⟨hrun, fun hempty => ?_⟩
  unfold edit_interactive list_entries
  dsimp only
  rw [hrun, hempty]
  simp

/-- Witness for C7: one candidate key is streamed as "smith2020\n", the
cancelled (whitespace-only) selection trims to the empty string, and
the interactive edit caller stops without editor runs or updates. -/
theorem c7_selector_streams_and_trims_witness :
    run_fzf_pipeline sampleFzfCancel [sampleEntry]
      = (.ok "", ["smith2020\n"])
    ∧ edit_interactive sampleFzfCancel sampleSerialize (some "vi")
        sampleEditorChange sampleDeserialize [sampleEntry]
      = ⟨.ok (), [sampleEntry], [], []⟩ := by
  have h := c7_selector_streams_and_trims sampleFzfCancel sampleSerialize
    (some "vi") sampleEditorChange sampleDeserialize [sampleEntry]
    "smith2020" [] (by rfl)
  exact ⟨h.1.trans (by rfl), h.2 (by rfl)⟩

end Bibrs
